import Mathlib

/-!
# Verification of the opencode-harness context tracker and memory utilities

Shallow embedding of `packages/plugin/src/context-tracker.ts`,
`packages/shared/src/memory-format.ts` and the `initialize` function of
`packages/plugin/src/memory-hooks.ts`.

Modelling conventions:
* JavaScript numbers used for importances, thresholds and token counts are
  modelled as rationals (`ℚ`); timestamps (`Date.now()`) are passed in
  explicitly as integer parameters instead of being read from a clock.
* `Array.prototype.findIndex` is modelled by `findIndex`, returning
  `Option ℕ` (`none` stands for `-1`).
* The truthiness test `a || b` on optional strings (`undefined` and `""` are
  falsy) is modelled by `jsOrString`.
* Nondeterministic inputs (`randomUUID()`) are passed as parameters.
-/

namespace OpencodeHarness

/-- The `type` field of a `ContextItem`:
`'file' | 'function' | 'class' | 'search' | 'command'` (shared/types). -/
inductive ItemType where
  | file
  | function
  | class_
  | search
  | command
deriving DecidableEq, Repr

/-- Source `ContextItem` from shared/types: `path`, `type`, `viewedAt`,
`importance`, optional `summary`. -/
structure ContextItem where
  path : String
  type : ItemType
  viewedAt : ℤ
  importance : ℚ
  summary : Option String
deriving DecidableEq, Repr

instance : Inhabited ContextItem := ⟨⟨"", ItemType.file, 0, 0, none⟩⟩

/-- Source `ContextState` from shared/types. `lastCompactionAt` is optional. -/
structure ContextState where
  items : List ContextItem
  totalTokensEstimate : ℚ
  needsCompaction : Bool
  lastCompactionAt : Option ℤ
deriving DecidableEq, Repr

/-- Source `ContextTrackerConfig` from context-tracker.ts. -/
structure ContextTrackerConfig where
  maxTokens : ℚ
  compactionThreshold : ℚ
  importanceDecayRate : ℚ
deriving DecidableEq, Repr

/-- Source `DEFAULT_CONFIG = { maxTokens: 100000, compactionThreshold: 0.8,
importanceDecayRate: 0.95 }`. -/
def DEFAULT_CONFIG : ContextTrackerConfig :=
  { maxTokens := 100000, compactionThreshold := 8/10, importanceDecayRate := 95/100 }

/-- The initial tracker state set up by `createContextTracker`. -/
def initialState : ContextState :=
  { items := [], totalTokensEstimate := 0, needsCompaction := false,
    lastCompactionAt := none }

/-- Source `calculateImportance`: base importance by item type
(file 0.7, function 0.8, class 0.8, search 0.5, command 0.6). -/
def calculateImportance : ItemType → ℚ
  | ItemType.file => 7/10
  | ItemType.function => 8/10
  | ItemType.class_ => 8/10
  | ItemType.search => 5/10
  | ItemType.command => 6/10

/-- Source `estimateTokens`: default per-kind token estimate
(file 500, function 200, class 400, search 100, command 150). -/
def estimateTokens (item : ContextItem) : ℚ :=
  match item.type with
  | ItemType.file => 500
  | ItemType.function => 200
  | ItemType.class_ => 400
  | ItemType.search => 100
  | ItemType.command => 150

/-- Source `checkCompactionNeeded`: sets
`needsCompaction := totalTokensEstimate / maxTokens >= compactionThreshold`. -/
def checkCompactionNeeded (config : ContextTrackerConfig) (s : ContextState) :
    ContextState :=
  { s with needsCompaction :=
      decide (config.compactionThreshold ≤ s.totalTokensEstimate / config.maxTokens) }

/-- Model of `Array.prototype.findIndex`, as an `Option ℕ` (`none` for `-1`). -/
def findIndex (p : ContextItem → Bool) : List ContextItem → Option ℕ
  | [] => none
  | x :: xs => if p x then some 0 else (findIndex p xs).map (· + 1)

/-- JavaScript `a || b` on optional strings: `undefined` and `""` are falsy,
so the left operand is returned iff it is a non-empty string. -/
def jsOrString (a b : Option String) : Option String :=
  match a with
  | none => b
  | some s => if s = "" then b else some s

/-- The object spread performed by `addItem` on an existing entry:
`{ ...existing, viewedAt, importance: min(1, existing.importance + 0.1),
summary: item.summary || existing.summary }`. -/
def updateExisting (existing item : ContextItem) : ContextItem :=
  { existing with
    viewedAt := item.viewedAt,
    importance := min 1 (existing.importance + 1/10),
    summary := jsOrString item.summary existing.summary }

/-- Source `addItem(item, tokens)` from context-tracker.ts: update the first item
with the same path in place, otherwise push the item and add its token cost;
then `checkCompactionNeeded()`. -/
def addItem (config : ContextTrackerConfig) (item : ContextItem) (tokens : ℚ)
    (s : ContextState) : ContextState :=
  match findIndex (fun i => i.path == item.path) s.items with
  | some idx =>
      checkCompactionNeeded config
        { s with items := s.items.set idx (updateExisting (s.items.getD idx default) item) }
  | none =>
      checkCompactionNeeded config
        { s with items := s.items ++ [item],
                 totalTokensEstimate := s.totalTokensEstimate + tokens }

/-- Source `trackFile(path, tokens, summary?)`. -/
def trackFile (config : ContextTrackerConfig) (path : String) (tokens : ℚ)
    (summary : Option String) (now : ℤ) (s : ContextState) : ContextState :=
  addItem config
    { path := path, type := ItemType.file, viewedAt := now,
      importance := calculateImportance ItemType.file, summary := summary }
    tokens s

/-- Source `trackSymbol(path, symbolName, tokens)`: key `` `${path}#${symbolName}` ``,
type `'function'`. -/
def trackSymbol (config : ContextTrackerConfig) (path symbolName : String)
    (tokens : ℚ) (now : ℤ) (s : ContextState) : ContextState :=
  addItem config
    { path := path ++ "#" ++ symbolName, type := ItemType.function,
      viewedAt := now, importance := calculateImportance ItemType.function,
      summary := none }
    tokens s

/-- Source `trackSearch(query, resultCount)`: key `` `search:${query}` ``, summary
`` `${resultCount} results` ``, fixed cost 100. -/
def trackSearch (config : ContextTrackerConfig) (query : String)
    (resultCount : ℤ) (now : ℤ) (s : ContextState) : ContextState :=
  addItem config
    { path := "search:" ++ query, type := ItemType.search, viewedAt := now,
      importance := calculateImportance ItemType.search,
      summary := some (toString resultCount ++ " results") }
    100 s

/-- Source `trackCommand(command, outputTokens)`: key
`` `cmd:${command.substring(0, 50)}` ``. -/
def trackCommand (config : ContextTrackerConfig) (command : String)
    (outputTokens : ℚ) (now : ℤ) (s : ContextState) : ContextState :=
  addItem config
    { path := "cmd:" ++ command.take 50, type := ItemType.command,
      viewedAt := now, importance := calculateImportance ItemType.command,
      summary := none }
    outputTokens s

/-- Source `markCompacted()`: `{ ...state, needsCompaction: false,
lastCompactionAt: Date.now() }`. -/
def markCompacted (now : ℤ) (s : ContextState) : ContextState :=
  { s with needsCompaction := false, lastCompactionAt := some now }

/-- Source `applyDecay()`: multiply every importance by `importanceDecayRate`.
Note: the source does not call `checkCompactionNeeded` here. -/
def applyDecay (config : ContextTrackerConfig) (s : ContextState) : ContextState :=
  { s with items := s.items.map (fun i =>
      { i with importance := i.importance * config.importanceDecayRate }) }

/-- Source `prune(importanceThreshold)`: returns the new state and the removed
items.  In the source the new `totalTokensEstimate` is computed from
`state.items`, which still refers to the state *before* the reassignment,
so the sum ranges over all pre-prune items, removed ones included. -/
def prune (config : ContextTrackerConfig) (importanceThreshold : ℚ)
    (s : ContextState) : ContextState × List ContextItem :=
  let removed := s.items.filter (fun i => decide (i.importance < importanceThreshold))
  let s' : ContextState :=
    { s with
      items := s.items.filter (fun i => decide (importanceThreshold ≤ i.importance)),
      totalTokensEstimate := (s.items.map estimateTokens).sum }
  (checkCompactionNeeded config s', removed)

/-- The tracker operations a client can invoke (each carrying the
`Date.now()` value observed during the call where relevant). -/
inductive Op where
  | opTrackFile (path : String) (tokens : ℚ) (summary : Option String) (now : ℤ)
  | opTrackSymbol (path symbolName : String) (tokens : ℚ) (now : ℤ)
  | opTrackSearch (query : String) (resultCount : ℤ) (now : ℤ)
  | opTrackCommand (command : String) (outputTokens : ℚ) (now : ℤ)
  | opApplyDecay
  | opPrune (importanceThreshold : ℚ)
  | opMarkCompacted (now : ℤ)

/-- One tracker call (`prune`'s returned list is dropped). -/
def step (config : ContextTrackerConfig) (s : ContextState) : Op → ContextState
  | Op.opTrackFile path tokens summary now => trackFile config path tokens summary now s
  | Op.opTrackSymbol path symbolName tokens now => trackSymbol config path symbolName tokens now s
  | Op.opTrackSearch query resultCount now => trackSearch config query resultCount now s
  | Op.opTrackCommand command outputTokens now => trackCommand config command outputTokens now s
  | Op.opApplyDecay => applyDecay config s
  | Op.opPrune importanceThreshold => (prune config importanceThreshold s).1
  | Op.opMarkCompacted now => markCompacted now s

/-- A sequence of tracker calls from a given state. -/
def run (config : ContextTrackerConfig) (s : ContextState) : List Op → ContextState
  | [] => s
  | op :: ops => run config (step config s op) ops

/-!
## Reference-level model of the tracker (array aliasing)

`getState()` returns `{ ...state }`, a *shallow* copy: the `items` array is
shared between the returned snapshot and the live state.  `addItem` mutates
that array in place (`state.items[existingIndex] = ...` / `state.items.push`),
while `prune` and `applyDecay` build fresh arrays with `filter`/`map` and
`markCompacted` only spreads the state object.  To reason about this
sharing we model the heap of arrays explicitly: a `TrackerWorld` holds a
list of arrays, and the state stores an index (`itemsRef`) into it. -/

/-- The fields of `ContextState` as stored in the state object, with the
`items` array replaced by a reference (index) into the heap. -/
structure RefState where
  itemsRef : ℕ
  totalTokensEstimate : ℚ
  needsCompaction : Bool
  lastCompactionAt : Option ℤ
deriving DecidableEq, Repr

/-- Heap of arrays plus the tracker's current state object. -/
structure TrackerWorld where
  heap : List (List ContextItem)
  st : RefState
deriving DecidableEq, Repr

/-- Dereference an array reference (out-of-range references read `[]`). -/
def derefItems (w : TrackerWorld) (r : ℕ) : List ContextItem :=
  w.heap.getD r []

/-- Source `getState()`: `{ ...state }` — copies the scalar fields and the array
*reference*, not the array. -/
def getState (w : TrackerWorld) : RefState := w.st

/-- Fresh world produced by `createContextTracker`: one empty items array. -/
def initialWorld : TrackerWorld :=
  { heap := [[]],
    st := { itemsRef := 0, totalTokensEstimate := 0, needsCompaction := false,
            lastCompactionAt := none } }

/-- Source `checkCompactionNeeded` on the reference model (mutates the scalar field
of the state object only). -/
def checkRef (config : ContextTrackerConfig) (w : TrackerWorld) : TrackerWorld :=
  let b := decide (config.compactionThreshold ≤ w.st.totalTokensEstimate / config.maxTokens)
  { w with st := { w.st with needsCompaction := b } }

/-- Source `addItem` on the reference model: both branches mutate the current
items array in place (index assignment / `push`), so the write happens at
`itemsRef` in the heap. -/
def addItemRef (config : ContextTrackerConfig) (item : ContextItem) (tokens : ℚ)
    (w : TrackerWorld) : TrackerWorld :=
  let items := derefItems w w.st.itemsRef
  match findIndex (fun i => i.path == item.path) items with
  | some idx =>
      let updated := items.set idx (updateExisting (items.getD idx default) item)
      checkRef config { w with heap := w.heap.set w.st.itemsRef updated }
  | none =>
      let st' := { w.st with totalTokensEstimate := w.st.totalTokensEstimate + tokens }
      checkRef config { heap := w.heap.set w.st.itemsRef (items ++ [item]), st := st' }

/-- Source `trackFile` on the reference model. -/
def trackFileRef (config : ContextTrackerConfig) (path : String) (tokens : ℚ)
    (summary : Option String) (now : ℤ) (w : TrackerWorld) : TrackerWorld :=
  addItemRef config
    { path := path, type := ItemType.file, viewedAt := now,
      importance := calculateImportance ItemType.file, summary := summary }
    tokens w

/-- Source `prune` on the reference model: `filter` allocates fresh arrays, and the
state object is replaced by a new one pointing at the fresh survivors
array; the old array is left untouched in the heap. -/
def pruneRef (config : ContextTrackerConfig) (importanceThreshold : ℚ)
    (w : TrackerWorld) : TrackerWorld × List ContextItem :=
  let items := derefItems w w.st.itemsRef
  let removed := items.filter (fun i => decide (i.importance < importanceThreshold))
  let survivors := items.filter (fun i => decide (importanceThreshold ≤ i.importance))
  let total' := (items.map estimateTokens).sum
  let st' := { w.st with itemsRef := w.heap.length, totalTokensEstimate := total' }
  (checkRef config { heap := w.heap ++ [survivors], st := st' }, removed)

/-- Source `applyDecay` on the reference model: `map` allocates a fresh array. -/
def applyDecayRef (config : ContextTrackerConfig) (w : TrackerWorld) : TrackerWorld :=
  let items := derefItems w w.st.itemsRef
  { heap := w.heap ++ [items.map (fun i =>
      { i with importance := i.importance * config.importanceDecayRate })],
    st := { w.st with itemsRef := w.heap.length } }

/-- Source `markCompacted` on the reference model: spreads the state object,
keeping the same array reference and touching no array. -/
def markCompactedRef (now : ℤ) (w : TrackerWorld) : TrackerWorld :=
  { w with st := { w.st with needsCompaction := false, lastCompactionAt := some now } }

/-!
## Memory format utilities (`packages/shared/src/memory-format.ts`)
-/

/-- Source `MemoryType` from shared/types. -/
inductive MemoryType where
  | decision
  | finding
  | error
  | preference
  | context
  | summary
deriving DecidableEq, Repr

/-- The literal union string of a `MemoryType` (used when rendering
`` `- [${memory.type}] ...` ``). -/
def memoryTypeStr : MemoryType → String
  | MemoryType.decision => "decision"
  | MemoryType.finding => "finding"
  | MemoryType.error => "error"
  | MemoryType.preference => "preference"
  | MemoryType.context => "context"
  | MemoryType.summary => "summary"

/-- Source `MemoryEntry` from shared/types (the free-form `metadata` record is not
modelled; no claim refers to it). -/
structure MemoryEntry where
  id : String
  timestamp : ℤ
  sessionId : String
  type : MemoryType
  content : String
  importance : ℚ
deriving DecidableEq, Repr

/-- Source `MemoryStore` from shared/types (`version` is fixed to the literal 1 by
the type, modelled as a `ℕ` field). -/
structure MemoryStore where
  version : ℕ
  projectId : String
  lastUpdated : ℤ
  entries : List MemoryEntry
deriving DecidableEq, Repr

/-- Source `createMemoryStore(projectId)`. -/
def createMemoryStore (projectId : String) (now : ℤ) : MemoryStore :=
  { version := 1, projectId := projectId, lastUpdated := now, entries := [] }

/-- Source `createMemoryEntry(sessionId, type, content, importance)`; the
`randomUUID()` and `Date.now()` values are passed in, and the importance is
clamped by `Math.max(0, Math.min(1, importance))`. -/
def createMemoryEntry (id : String) (now : ℤ) (sessionId : String)
    (type : MemoryType) (content : String) (importance : ℚ) : MemoryEntry :=
  { id := id, timestamp := now, sessionId := sessionId, type := type,
    content := content, importance := max 0 (min 1 importance) }

/-- Source `pruneOldMemories(store, maxAgeDays)`: keep entries with
`timestamp > cutoff || importance > 0.8` where
`cutoff = now - maxAgeDays * 24 * 60 * 60 * 1000`. -/
def pruneOldMemories (store : MemoryStore) (maxAgeDays : ℤ) (now : ℤ) :
    MemoryStore :=
  let cutoff := now - maxAgeDays * 24 * 60 * 60 * 1000
  { store with
    lastUpdated := now,
    entries := store.entries.filter (fun e =>
      decide (cutoff < e.timestamp) || decide ((8:ℚ)/10 < e.importance)) }

/-- The summary report built by `compressMemories`: the two labelled
sections (present only when non-empty after `.filter(Boolean)`) joined by
newlines, each section semicolon-joining the entries' contents. -/
def summaryContentOf (decisions findings : List MemoryEntry) : String :=
  String.intercalate "\n"
    (([ if decisions.length > 0 then
          "Decisions: " ++ String.intercalate "; " (decisions.map (fun d => d.content))
        else "",
        if findings.length > 0 then
          "Findings: " ++ String.intercalate "; " (findings.map (fun f => f.content))
        else "" ] : List String).filter (fun s => s ≠ ""))

/-- Source `compressMemories(store, sessionId)`; `id`/`now` feed the
`createMemoryEntry` call inside. -/
def compressMemories (store : MemoryStore) (sessionId : String) (id : String)
    (now : ℤ) : MemoryStore :=
  let sessionEntries := store.entries.filter (fun e =>
    e.sessionId == sessionId && e.type ≠ MemoryType.summary)
  if sessionEntries.length < 10 then store
  else
    let decisions := sessionEntries.filter (fun e => e.type == MemoryType.decision)
    let findings := sessionEntries.filter (fun e => e.type == MemoryType.finding)
    let summary := createMemoryEntry id now sessionId MemoryType.summary
      (summaryContentOf decisions findings) (9/10)
    let otherEntries := store.entries.filter (fun e => ¬ (e.sessionId == sessionId))
    { store with lastUpdated := now, entries := otherEntries ++ [summary] }

/-- The line rendered for one memory: `` `- [${memory.type}] ${memory.content}` ``. -/
def renderLine (m : MemoryEntry) : String :=
  "- [" ++ memoryTypeStr m.type ++ "] " ++ m.content

/-- Value of `Math.ceil(line.length / 4)` for a memory's rendered line. -/
def lineTokensOf (m : MemoryEntry) : ℤ :=
  (((renderLine m).length + 3) / 4 : ℕ)

/-- The loop of `formatMemoriesForContext`: walk the entries keeping a
running token estimate, and `break` on the first entry whose line would push
the estimate past `maxTokens`. -/
def formatLines (maxTokens : ℤ) : List MemoryEntry → ℤ → List String
  | [], _ => []
  | m :: rest, est =>
      if maxTokens < est + lineTokensOf m then []
      else renderLine m :: formatLines maxTokens rest (est + lineTokensOf m)

/-- Source `formatMemoriesForContext(memories, maxTokens)`: header plus the lines
accepted by the loop (running estimate starts at 10), joined by newlines. -/
def formatMemoriesForContext (memories : List MemoryEntry) (maxTokens : ℤ) :
    String :=
  String.intercalate "\n" ("## Relevant Memories" :: formatLines maxTokens memories 10)

/-- Source `initialize()` from memory-hooks.ts, with the I/O boundary modelled as
an `Option MemoryStore`: `some s` is a successful `readFile` + `JSON.parse`
of the persisted file, `none` is the `catch` path (unreadable file or parse
error).  On success the loaded store is pruned to 30 days; on failure the
fallback is `createMemoryStore(getProjectId())`.  (The `else` branch for a
missing file also builds a fresh store; the claims concern the failure
path.)  The function is total: no exception propagates to the caller. -/
def initializeModel (projectId : String) (loaded : Option MemoryStore)
    (now : ℤ) : MemoryStore :=
  match loaded with
  | some s => pruneOldMemories s 30 now
  | none => createMemoryStore projectId now

/-- Value of the items array after `addItem` runs on it (first match updated
in place, otherwise the item pushed at the end). -/
def itemsAfterAdd (item : ContextItem) (l : List ContextItem) : List ContextItem :=
  match findIndex (fun i => i.path == item.path) l with
  | some idx => l.set idx (updateExisting (l.getD idx default) item)
  | none => l ++ [item]

/-!
## Concrete instances used by counterexamples and witnesses
-/

/-- An item whose importance 0.05 is below the default prune threshold. -/
def lowImportanceItem : ContextItem :=
  { path := "a", type := ItemType.file, viewedAt := 0, importance := 1/20,
    summary := none }

/-- A state holding only `lowImportanceItem`, its cost fully counted. -/
def pruneCexState : ContextState :=
  { items := [lowImportanceItem], totalTokensEstimate := 500,
    needsCompaction := false, lastCompactionAt := none }

/-- A small configuration (`maxTokens` 100, threshold 0.5) so the compaction
flag trips early. -/
def smallCfg : ContextTrackerConfig :=
  { maxTokens := 100, compactionThreshold := 1/2, importanceDecayRate := 95/100 }

/-- Track 60 tokens (flag becomes true), mark compacted (flag cleared while
the tokens stay), then decay (which does not recompute the flag). -/
def decayCexOps : List Op :=
  [Op.opTrackFile "a" 60 none 0, Op.opMarkCompacted 0, Op.opApplyDecay]

/-- The already-seen observation of file "a", carrying summary "keep". -/
def seenItem : ContextItem :=
  { path := "a", type := ItemType.file, viewedAt := 0, importance := 7/10,
    summary := some "keep" }

/-- A state that has already seen the file "a" with summary "keep". -/
def seenState : ContextState :=
  { items := [seenItem], totalTokensEstimate := 500, needsCompaction := false,
    lastCompactionAt := none }

/-- A later observation of the same file "a". -/
def reItem : ContextItem :=
  { path := "a", type := ItemType.file, viewedAt := 5,
    importance := 7/10, summary := none }

/-- An observation of a file "b" not present in `seenState`. -/
def freshItem : ContextItem :=
  { path := "b", type := ItemType.file, viewedAt := 5,
    importance := 7/10, summary := none }

/-- Milliseconds per day, as in `maxAgeDays * 24 * 60 * 60 * 1000`. -/
def msPerDay : ℤ := 24 * 60 * 60 * 1000

/-- A low-importance entry whose timestamp will sit exactly on the cutoff. -/
def boundaryEntry : MemoryEntry :=
  { id := "x", timestamp := 0, sessionId := "s", type := MemoryType.finding,
    content := "c", importance := 1/2 }

/-- A store holding only `boundaryEntry`. -/
def boundaryStore : MemoryStore :=
  { version := 1, projectId := "p", lastUpdated := 0, entries := [boundaryEntry] }

/-- A 365-day-old entry with importance 0.81 (retention-exempt). -/
def retainHigh : MemoryEntry :=
  { id := "h", timestamp := 0, sessionId := "s", type := MemoryType.finding,
    content := "c", importance := 81/100 }

/-- A 365-day-old entry with importance 0.5. -/
def retainLow : MemoryEntry :=
  { id := "l", timestamp := 0, sessionId := "s", type := MemoryType.finding,
    content := "c", importance := 1/2 }

/-- A store holding the two 365-day-old entries. -/
def retainStore : MemoryStore :=
  { version := 1, projectId := "p", lastUpdated := 0,
    entries := [retainHigh, retainLow] }

/-- A session-"s1" entry of the given id, content and type. -/
def s1Entry (i c : String) (t : MemoryType) : MemoryEntry :=
  { id := i, timestamp := 0, sessionId := "s1", type := t, content := c,
    importance := 1/2 }

/-- An entry belonging to a different session. -/
def otherSessionEntry : MemoryEntry :=
  { id := "10", timestamp := 0, sessionId := "other",
    type := MemoryType.decision, content := "c10", importance := 1/2 }

/-- A store with ten non-summary entries for session "s1" plus one entry of
another session. -/
def tenEntryStore : MemoryStore :=
  { version := 1, projectId := "p", lastUpdated := 0,
    entries := [s1Entry "0" "c0" MemoryType.decision,
      s1Entry "1" "c1" MemoryType.decision, s1Entry "2" "c2" MemoryType.finding,
      s1Entry "3" "c3" MemoryType.error, s1Entry "4" "c4" MemoryType.context,
      s1Entry "5" "c5" MemoryType.preference, s1Entry "6" "c6" MemoryType.finding,
      s1Entry "7" "c7" MemoryType.context, s1Entry "8" "c8" MemoryType.context,
      s1Entry "9" "c9" MemoryType.context, otherSessionEntry] }

/-- The same store with only nine session-"s1" entries. -/
def nineEntryStore : MemoryStore :=
  { tenEntryStore with entries := tenEntryStore.entries.take 9 }

/-- A memory entry whose rendered line "- [finding] c0" is 14 characters,
i.e. 4 estimated tokens. -/
def smallMemory : MemoryEntry := s1Entry "0" "c0" MemoryType.finding

/-!
## Helper lemmas
-/

/-- A `findIndex` hit is inside the array. -/
theorem findIndex_lt_length {p : ContextItem → Bool} :
    ∀ {l : List ContextItem} {i : ℕ}, findIndex p l = some i → i < l.length := by
  intro l
  induction l with
  | nil => intro i h; simp [findIndex] at h
  | cons x xs ih =>
      intro i h
      by_cases hp : p x
      · simp [findIndex, hp] at h
        simp [List.length_cons]
        omega
      · simp [findIndex, hp] at h
        obtain ⟨j, hj, rfl⟩ := h
        have := ih hj
        simp [List.length_cons]
        omega

/-- Lemma: `findIndex` succeeds exactly when some element satisfies the predicate
(i.e. when `Array.prototype.findIndex` would not return `-1`). -/
theorem findIndex_isSome_iff {p : ContextItem → Bool} :
    ∀ {l : List ContextItem}, (findIndex p l).isSome ↔ ∃ x ∈ l, p x = true := by
  intro l
  induction l with
  | nil => simp [findIndex]
  | cons x xs ih =>
      by_cases hp : p x
      · simp [findIndex, hp]
      · simp [findIndex, hp, Option.isSome_map, ih]

/-- Reading back the index just written by `List.set`. -/
theorem getD_set_self {α : Type _} {l : List α} {i : ℕ} {a d : α}
    (h : i < l.length) : (l.set i a).getD i d = a := by
  simp [List.getD_eq_getElem?_getD, List.getElem?_set_self, h]

/-- Unfolding `addItem` when `findIndex` hits. -/
theorem addItem_found (config : ContextTrackerConfig) (item : ContextItem)
    (tokens : ℚ) (s : ContextState) (idx : ℕ)
    (h : findIndex (fun i => i.path == item.path) s.items = some idx) :
    addItem config item tokens s =
      checkCompactionNeeded config
        { s with items := s.items.set idx (updateExisting (s.items.getD idx default) item) } := by
  unfold addItem
  rw [h]

/-- Unfolding `addItem` when `findIndex` misses. -/
theorem addItem_notFound (config : ContextTrackerConfig) (item : ContextItem)
    (tokens : ℚ) (s : ContextState)
    (h : findIndex (fun i => i.path == item.path) s.items = none) :
    addItem config item tokens s =
      checkCompactionNeeded config
        { s with items := s.items ++ [item],
                 totalTokensEstimate := s.totalTokensEstimate + tokens } := by
  unfold addItem
  rw [h]

/-- Lemma: `checkCompactionNeeded` establishes the compaction equation and keeps
every other field. -/
theorem checkCompactionNeeded_spec (config : ContextTrackerConfig)
    (s : ContextState) :
    (checkCompactionNeeded config s).needsCompaction =
      decide (config.compactionThreshold ≤
        (checkCompactionNeeded config s).totalTokensEstimate / config.maxTokens) ∧
    (checkCompactionNeeded config s).items = s.items ∧
    (checkCompactionNeeded config s).totalTokensEstimate = s.totalTokensEstimate := by
  refine ⟨rfl, rfl, rfl⟩

/-!
## Claim theorems
-/

/-- C1 counterexample: on a state holding one file item of importance 0.05,
`prune(0.1)` leaves `totalTokensEstimate = 500` (the default estimate of the
*removed* item), while the sum of the default per-kind estimates of the
surviving items is 0 — refuting the claim that the total is recomputed from
the survivors only. -/
theorem prune_totals_claim_counterexample :
    (prune DEFAULT_CONFIG (1/10) pruneCexState).1.totalTokensEstimate = 500 ∧
    (((prune DEFAULT_CONFIG (1/10) pruneCexState).1.items).map estimateTokens).sum = 0 ∧
    (prune DEFAULT_CONFIG (1/10) pruneCexState).1.totalTokensEstimate ≠
      (((prune DEFAULT_CONFIG (1/10) pruneCexState).1.items).map estimateTokens).sum := by
  refine ⟨?_, ?_, ?_⟩
  · simp [prune, pruneCexState, lowImportanceItem, estimateTokens, checkCompactionNeeded]
  · have h : (prune DEFAULT_CONFIG (1/10) pruneCexState).1.items = [] := by
      simp [prune, pruneCexState, lowImportanceItem, checkCompactionNeeded]
      norm_num
    rw [h]; simp
  · have h : (prune DEFAULT_CONFIG (1/10) pruneCexState).1.items = [] := by
      simp [prune, pruneCexState, lowImportanceItem, checkCompactionNeeded]
      norm_num
    have h' : (prune DEFAULT_CONFIG (1/10) pruneCexState).1.totalTokensEstimate = 500 := by
      simp [prune, pruneCexState, lowImportanceItem, estimateTokens, checkCompactionNeeded]
    rw [h, h']
    norm_num

/-- C1 (amended): `prune(importanceThreshold)` removes exactly the items
whose importance is strictly below the threshold, returns those removed
items, and sets `totalTokensEstimate` to the sum of the default per-kind
token estimates of **all items present before the call** (removed items
included), not of the survivors only. -/
theorem prune_removes_below_threshold_and_recomputes_total
    (config : ContextTrackerConfig) (thr : ℚ) (s : ContextState) :
    (prune config thr s).2 =
      s.items.filter (fun i => decide (i.importance < thr)) ∧
    (prune config thr s).1.items =
      s.items.filter (fun i => decide (thr ≤ i.importance)) ∧
    (prune config thr s).1.totalTokensEstimate = (s.items.map estimateTokens).sum :=
  ⟨rfl, rfl, rfl⟩

/-- C4 counterexample: with `maxAgeDays = 30` and `now` exactly 30 days
after an entry's timestamp, the entry is "no older than `now - maxAgeDays`"
(its timestamp equals the cutoff), yet `pruneOldMemories` removes it
(importance 0.5): the code keeps only entries *strictly newer* than the
cutoff. -/
theorem pruneOld_claim_counterexample :
    (30 * msPerDay - 30 * msPerDay ≤ boundaryEntry.timestamp) ∧
    (pruneOldMemories boundaryStore 30 (30 * msPerDay)).entries = [] := by
  constructor
  · simp [msPerDay, boundaryEntry]
  · simp [pruneOldMemories, boundaryStore, boundaryEntry, msPerDay]
    norm_num

/-- C4 (amended): `pruneOldMemories` keeps exactly the entries satisfying
at least one of two independent conditions: the entry's timestamp is
**strictly greater** than `now - maxAgeDays` (in milliseconds), or its
importance exceeds 0.8; an entry whose timestamp equals the cutoff exactly
(and importance at most 0.8) is removed.  The claim's concrete retention
examples hold: at `maxAgeDays = 30`, a 365-day-old entry with importance
0.81 is retained while one of the same age with importance 0.5 is removed. -/
theorem pruneOld_keep_condition (store : MemoryStore) (maxAgeDays now : ℤ) :
    (pruneOldMemories store maxAgeDays now).entries =
      store.entries.filter (fun e =>
        decide (now - maxAgeDays * 24 * 60 * 60 * 1000 < e.timestamp) ||
        decide ((8:ℚ)/10 < e.importance)) ∧
    (pruneOldMemories store maxAgeDays now).lastUpdated = now ∧
    (pruneOldMemories store maxAgeDays now).projectId = store.projectId ∧
    (pruneOldMemories store maxAgeDays now).version = store.version ∧
    (pruneOldMemories retainStore 30 (365 * msPerDay)).entries = [retainHigh] := by
  refine ⟨rfl, rfl, rfl, rfl, ?_⟩
  simp [pruneOldMemories, retainStore, retainHigh, retainLow, msPerDay]
  norm_num

/-- C7: when loading the persisted store fails (unreadable file or corrupt
content, modelled by the `none` load result), `initialize` does not raise —
it is a total function here — and leaves a freshly created empty store for
the project: version 1, no entries, the derived project id. -/
theorem initialize_falls_back_to_fresh_store (projectId : String) (now : ℤ) :
    initializeModel projectId none now = createMemoryStore projectId now ∧
    (initializeModel projectId none now).version = 1 ∧
    (initializeModel projectId none now).entries = [] ∧
    (initializeModel projectId none now).projectId = projectId :=
  ⟨rfl, rfl, rfl, rfl⟩

/-- C9: calling `markCompacted` twice produces exactly the state of calling
it once at the second timestamp (so the two differ from a single call only
in `lastCompactionAt`); in both cases `needsCompaction` is false and the
items and `totalTokensEstimate` are those of the original state. -/
theorem markCompacted_idempotent (s : ContextState) (t t' : ℤ) :
    markCompacted t' (markCompacted t s) = markCompacted t' s ∧
    (markCompacted t' (markCompacted t s)).needsCompaction = false ∧
    (markCompacted t s).needsCompaction = false ∧
    (markCompacted t' (markCompacted t s)).items = s.items ∧
    (markCompacted t' (markCompacted t s)).totalTokensEstimate = s.totalTokensEstimate ∧
    (markCompacted t s).items = s.items ∧
    (markCompacted t s).totalTokensEstimate = s.totalTokensEstimate ∧
    (markCompacted t' (markCompacted t s)).lastCompactionAt = some t' ∧
    (markCompacted t s).lastCompactionAt = some t :=
  ⟨rfl, rfl, rfl, rfl, rfl, rfl, rfl, rfl, rfl⟩

/-- C2: re-tracking an existing key leaves `totalTokensEstimate` unchanged,
sets that (first matching) item's `viewedAt` to the new observation time and
its importance to `min(1, old + 0.1)` (with the summary replaced only by a
truthy new one), while tracking a key not yet present appends the new item
and adds its token cost to the total.  Containment of the key is the
`findIndex` hit, as the first conjunct records. -/
theorem addItem_retrack_vs_new_key (config : ContextTrackerConfig)
    (item : ContextItem) (tokens : ℚ) (s : ContextState) :
    ((∃ x ∈ s.items, x.path = item.path) ↔
      (findIndex (fun i => i.path == item.path) s.items).isSome) ∧
    (∀ idx, findIndex (fun i => i.path == item.path) s.items = some idx →
      (addItem config item tokens s).totalTokensEstimate = s.totalTokensEstimate ∧
      (addItem config item tokens s).items =
        s.items.set idx
          { s.items.getD idx default with
            viewedAt := item.viewedAt,
            importance := min 1 ((s.items.getD idx default).importance + 1/10),
            summary := jsOrString item.summary (s.items.getD idx default).summary }) ∧
    (findIndex (fun i => i.path == item.path) s.items = none →
      (addItem config item tokens s).items = s.items ++ [item] ∧
      (addItem config item tokens s).totalTokensEstimate =
        s.totalTokensEstimate + tokens) := by
  refine ⟨?_, ?_, ?_⟩
  · rw [findIndex_isSome_iff]
    constructor
    · rintro ⟨x, hx, hpath⟩
      exact ⟨x, hx, by simp [hpath]⟩
    · rintro ⟨x, hx, hpath⟩
      exact ⟨x, hx, by simpa using hpath⟩
  · intro idx h
    rw [addItem_found config item tokens s idx h]
    exact ⟨rfl, by simp [checkCompactionNeeded, updateExisting]⟩
  · intro h
    rw [addItem_notFound config item tokens s h]
    exact ⟨rfl, rfl⟩

/-- C2 witness: in `seenState` (which has seen "a"), re-tracking "a" keeps
the total at 500; tracking the fresh "b" raises it to 550. -/
theorem addItem_retrack_vs_new_key_witness :
    (addItem DEFAULT_CONFIG reItem 50 seenState).totalTokensEstimate =
      seenState.totalTokensEstimate ∧
    (addItem DEFAULT_CONFIG freshItem 50 seenState).items =
      seenState.items ++ [freshItem] ∧
    (addItem DEFAULT_CONFIG freshItem 50 seenState).totalTokensEstimate =
      seenState.totalTokensEstimate + 50 :=
  ⟨((addItem_retrack_vs_new_key DEFAULT_CONFIG reItem 50 seenState).2.1 0 rfl).1,
   ((addItem_retrack_vs_new_key DEFAULT_CONFIG freshItem 50 seenState).2.2 rfl).1,
   ((addItem_retrack_vs_new_key DEFAULT_CONFIG freshItem 50 seenState).2.2 rfl).2⟩

/-- C3 counterexample: with `maxTokens = 100` and threshold 0.5, after
`trackFile(60 tokens)`, `markCompacted()`, `applyDecay()` — the last call
being one of the operations the claim quantifies over — the flag is false
although `totalTokensEstimate / maxTokens = 0.6 ≥ 0.5`: `applyDecay` does
not recompute `needsCompaction`. -/
theorem compaction_invariant_counterexample :
    (run smallCfg initialState decayCexOps).needsCompaction ≠
      decide (smallCfg.compactionThreshold ≤
        (run smallCfg initialState decayCexOps).totalTokensEstimate / smallCfg.maxTokens) := by
  have h1 : (run smallCfg initialState decayCexOps).needsCompaction = false := by
    simp [run, step, smallCfg, decayCexOps, initialState, trackFile, addItem,
      findIndex, checkCompactionNeeded, markCompacted, applyDecay, calculateImportance]
  have h2 : (run smallCfg initialState decayCexOps).totalTokensEstimate = 60 := by
    simp [run, step, smallCfg, decayCexOps, initialState, trackFile, addItem,
      findIndex, checkCompactionNeeded, markCompacted, applyDecay, calculateImportance]
  have h3 : smallCfg.compactionThreshold ≤ (60:ℚ) / smallCfg.maxTokens := by
    simp [smallCfg]
    norm_num
  rw [h1, h2, decide_eq_true h3]
  simp

/-- The compaction-flag equation
`needsCompaction = (compactionThreshold ≤ totalTokensEstimate / maxTokens)`. -/
def compactionEq (config : ContextTrackerConfig) (s : ContextState) : Prop :=
  s.needsCompaction =
    decide (config.compactionThreshold ≤ s.totalTokensEstimate / config.maxTokens)

/-- Lemma: every `addItem` leaves the compaction equation established. -/
theorem addItem_compactionEq (config : ContextTrackerConfig)
    (item : ContextItem) (tokens : ℚ) (s : ContextState) :
    compactionEq config (addItem config item tokens s) := by
  unfold addItem
  cases findIndex (fun i => i.path == item.path) s.items with
  | none => rfl
  | some idx => rfl

/-- C3 (amended): every track operation and `prune` re-establish
`needsCompaction = (totalTokensEstimate / maxTokens ≥ compactionThreshold)`
(they end in `checkCompactionNeeded`); `applyDecay` recomputes nothing — it
leaves both `needsCompaction` and `totalTokensEstimate` unchanged, so the
equation holds after `applyDecay` only when it already held before it. -/
theorem compaction_flag_after_each_operation (config : ContextTrackerConfig)
    (s : ContextState) :
    (∀ path tokens summary now,
      compactionEq config (step config s (Op.opTrackFile path tokens summary now))) ∧
    (∀ path symbolName tokens now,
      compactionEq config (step config s (Op.opTrackSymbol path symbolName tokens now))) ∧
    (∀ query resultCount now,
      compactionEq config (step config s (Op.opTrackSearch query resultCount now))) ∧
    (∀ command outputTokens now,
      compactionEq config (step config s (Op.opTrackCommand command outputTokens now))) ∧
    (∀ thr, compactionEq config (step config s (Op.opPrune thr))) ∧
    ((step config s Op.opApplyDecay).needsCompaction = s.needsCompaction ∧
     (step config s Op.opApplyDecay).totalTokensEstimate = s.totalTokensEstimate) := by
  refine ⟨?_, ?_, ?_, ?_, ?_, rfl, rfl⟩
  · intro path tokens summary now
    exact addItem_compactionEq config _ tokens s
  · intro path symbolName tokens now
    exact addItem_compactionEq config _ tokens s
  · intro query resultCount now
    exact addItem_compactionEq config _ 100 s
  · intro command outputTokens now
    exact addItem_compactionEq config _ outputTokens s
  · intro thr
    rfl

/-- C5: if the store holds fewer than 10 non-summary entries for the
session, `compressMemories` returns the store itself (entries unchanged);
otherwise it removes every entry of that session (of every kind) and
appends exactly one summary-kind entry with importance 0.9 whose content is
built from the session's decision and finding entries (semicolon-joined
under the "Decisions:" and "Findings:" labels), leaving entries of other
sessions untouched (in order). -/
theorem compressSession_spec (store : MemoryStore) (sessionId id : String)
    (now : ℤ) :
    ((store.entries.filter (fun e =>
        e.sessionId == sessionId && e.type ≠ MemoryType.summary)).length < 10 →
      compressMemories store sessionId id now = store) ∧
    (10 ≤ (store.entries.filter (fun e =>
        e.sessionId == sessionId && e.type ≠ MemoryType.summary)).length →
      (compressMemories store sessionId id now).entries =
        store.entries.filter (fun e => ¬ (e.sessionId == sessionId)) ++
          [{ id := id, timestamp := now, sessionId := sessionId,
             type := MemoryType.summary,
             content := summaryContentOf
               ((store.entries.filter (fun e =>
                  e.sessionId == sessionId && e.type ≠ MemoryType.summary)).filter
                    (fun e => e.type == MemoryType.decision))
               ((store.entries.filter (fun e =>
                  e.sessionId == sessionId && e.type ≠ MemoryType.summary)).filter
                    (fun e => e.type == MemoryType.finding)),
             importance := 9/10 }]) := by
  constructor
  · intro h
    simp only [compressMemories]
    rw [if_pos h]
  · intro h
    have h' : ¬ (store.entries.filter (fun e =>
        e.sessionId == sessionId && e.type ≠ MemoryType.summary)).length < 10 :=
      not_lt.mpr h
    simp only [compressMemories]
    rw [if_neg h']
    simp only [createMemoryEntry, List.append_cancel_left_eq]
    have himp : max 0 (min 1 ((9:ℚ)/10)) = 9/10 := by norm_num
    simp [himp]

/-- C5 witness: on the concrete ten-entry store the session is compressed
to the other-session entry followed by the importance-0.9 summary, while
the nine-entry store is returned unchanged. -/
theorem compressSession_spec_witness :
    compressMemories nineEntryStore "s1" "u" 7 = nineEntryStore ∧
    (compressMemories tenEntryStore "s1" "u" 7).entries =
      tenEntryStore.entries.filter (fun e => ¬ (e.sessionId == "s1")) ++
        [{ id := "u", timestamp := 7, sessionId := "s1",
           type := MemoryType.summary,
           content := summaryContentOf
             ((tenEntryStore.entries.filter (fun e =>
                e.sessionId == "s1" && e.type ≠ MemoryType.summary)).filter
                  (fun e => e.type == MemoryType.decision))
             ((tenEntryStore.entries.filter (fun e =>
                e.sessionId == "s1" && e.type ≠ MemoryType.summary)).filter
                  (fun e => e.type == MemoryType.finding)),
           importance := 9/10 }] :=
  ⟨(compressSession_spec nineEntryStore "s1" "u" 7).1 (by decide),
   (compressSession_spec tenEntryStore "s1" "u" 7).2 (by decide)⟩

/-- Lemma: the loop of `formatMemoriesForContext` renders exactly a prefix
of the entries — the longest one whose running token estimate (starting at
`est`) stays within `maxTokens`. -/
theorem formatLines_longest_affordable (maxTokens : ℤ) :
    ∀ (memories : List MemoryEntry) (est : ℤ),
      ∃ n, n ≤ memories.length ∧
        formatLines maxTokens memories est = (memories.take n).map renderLine ∧
        (∀ k, 0 < k → k ≤ n →
          est + ((memories.take k).map lineTokensOf).sum ≤ maxTokens) ∧
        (n < memories.length →
          maxTokens < est + ((memories.take (n+1)).map lineTokensOf).sum) := by
  intro memories
  induction memories with
  | nil =>
      intro est
      refine ⟨0, Nat.le_refl 0, rfl, ?_, ?_⟩
      · intro k hk0 hk
        omega
      · intro hlt
        simp at hlt
  | cons m rest ih =>
      intro est
      by_cases hc : maxTokens < est + lineTokensOf m
      · refine ⟨0, Nat.zero_le _, ?_, ?_, ?_⟩
        · simp [formatLines, hc]
        · intro k hk0 hk
          omega
        · intro _
          simpa using hc
      · obtain ⟨n, hn, heq, hall, hmax⟩ := ih (est + lineTokensOf m)
        refine ⟨n + 1, by simpa using Nat.succ_le_succ hn, ?_, ?_, ?_⟩
        · simp [formatLines, hc, heq]
        · intro k hk0 hk
          cases k with
          | zero => omega
          | succ k' =>
              have hsum : ((List.take (k'+1) (m :: rest)).map lineTokensOf).sum
                  = lineTokensOf m + ((rest.take k').map lineTokensOf).sum := by
                simp
              rw [hsum]
              rcases Nat.eq_zero_or_pos k' with h0 | hpos
              · subst h0
                simp
                linarith [not_lt.mp hc]
              · have hk' : k' ≤ n := by omega
                have := hall k' hpos hk'
                linarith
        · intro hlt
          have hlt' : n < rest.length := by
            simpa using Nat.lt_of_succ_lt_succ hlt
          have hrec := hmax hlt'
          have hsum : ((List.take (n+1+1) (m :: rest)).map lineTokensOf).sum
              = lineTokensOf m + ((rest.take (n+1)).map lineTokensOf).sum := by
            simp
          rw [hsum]
          linarith

/-- C6: `formatMemoriesForContext` outputs the header line followed by one
`- [kind] content` line per included entry, the included entries being
exactly the longest prefix of the input whose running token total (starting
at the fixed header cost 10, adding `ceil(lineLength/4)` per line) never
exceeds `maxTokens`; when already the first entry's line overflows the
budget, the output is the header line alone. -/
theorem formatForContext_included_lines (memories : List MemoryEntry)
    (maxTokens : ℤ) :
    (∃ n, n ≤ memories.length ∧
      formatMemoriesForContext memories maxTokens =
        String.intercalate "\n"
          ("## Relevant Memories" :: (memories.take n).map renderLine) ∧
      (∀ k, 0 < k → k ≤ n →
        10 + ((memories.take k).map lineTokensOf).sum ≤ maxTokens) ∧
      (n < memories.length →
        maxTokens < 10 + ((memories.take (n+1)).map lineTokensOf).sum)) ∧
    (∀ m rest, memories = m :: rest → maxTokens < 10 + lineTokensOf m →
      formatMemoriesForContext memories maxTokens = "## Relevant Memories") := by
  constructor
  · obtain ⟨n, hn, heq, hall, hmax⟩ := formatLines_longest_affordable maxTokens memories 10
    refine ⟨n, hn, ?_, hall, hmax⟩
    simp only [formatMemoriesForContext, heq]
  · rintro m rest rfl hover
    have hempty : formatLines maxTokens (m :: rest) 10 = [] := by
      simp [formatLines, hover]
    simp only [formatMemoriesForContext, hempty]
    rfl

/-- C6 witness: with 14-character lines (4 tokens each), a budget of 18
admits both entries (10 + 4 + 4), while a budget of 13 is overflowed by the
first entry already, leaving the header alone. -/
theorem formatForContext_included_lines_witness :
    (∃ n, n ≤ ([smallMemory, smallMemory] : List MemoryEntry).length ∧
      formatMemoriesForContext [smallMemory, smallMemory] 18 =
        String.intercalate "\n"
          ("## Relevant Memories" ::
            (([smallMemory, smallMemory] : List MemoryEntry).take n).map renderLine) ∧
      (∀ k, 0 < k → k ≤ n →
        10 + ((([smallMemory, smallMemory] : List MemoryEntry).take k).map lineTokensOf).sum ≤ 18) ∧
      (n < ([smallMemory, smallMemory] : List MemoryEntry).length →
        (18:ℤ) < 10 + ((([smallMemory, smallMemory] : List MemoryEntry).take (n+1)).map lineTokensOf).sum)) ∧
    formatMemoriesForContext [smallMemory] 13 = "## Relevant Memories" :=
  ⟨(formatForContext_included_lines [smallMemory, smallMemory] 18).1,
   (formatForContext_included_lines [smallMemory] 13).2 smallMemory [] rfl (by decide)⟩

/-- C10: on a state whose item at key `p` carries a non-empty summary
`str`, calling `trackFile(p, tokens, "")` keeps that summary: the
replacement `summary: item.summary || existing.summary` tests JavaScript
truthiness, and an empty string is falsy, so it never replaces an existing
summary. -/
theorem trackFile_empty_summary_keeps_existing (config : ContextTrackerConfig)
    (p : String) (tokens : ℚ) (now : ℤ) (s : ContextState) (idx : ℕ) (str : String)
    (hidx : findIndex (fun i => i.path == p) s.items = some idx)
    (hsum : (s.items.getD idx default).summary = some str)
    (_hne : str ≠ "") :
    ((trackFile config p tokens (some "") now s).items.getD idx default).summary =
      some str := by
  have hlt : idx < s.items.length := findIndex_lt_length hidx
  unfold trackFile
  rw [addItem_found config _ tokens s idx hidx]
  show ((s.items.set idx _).getD idx default).summary = some str
  rw [getD_set_self hlt]
  show jsOrString (some "") (s.items.getD idx default).summary = some str
  rw [hsum]
  rfl

/-- C10 witness: in `seenState`, whose item "a" carries summary "keep",
`trackFile("a", 5, "")` leaves the summary at "keep". -/
theorem trackFile_empty_summary_keeps_existing_witness :
    ((trackFile DEFAULT_CONFIG "a" 5 (some "") 9 seenState).items.getD 0
        default).summary = some "keep" :=
  trackFile_empty_summary_keeps_existing DEFAULT_CONFIG "a" 5 9 seenState 0 "keep"
    rfl rfl (by decide)

/-- C8 counterexample: `getState()` copies the state object shallowly, so
the snapshot shares the items array; the first `trackFile` after the
snapshot pushes onto that shared array, and the items observed through the
previously returned snapshot change — refuting the immutability claim. -/
theorem getState_snapshot_counterexample :
    derefItems (trackFileRef DEFAULT_CONFIG "a" 10 none 0 initialWorld)
        (getState initialWorld).itemsRef ≠
      derefItems initialWorld (getState initialWorld).itemsRef := by
  simp [derefItems, trackFileRef, addItemRef, initialWorld, getState, findIndex,
    checkRef]

/-- C8 (amended): `getState()` returns a shallow copy: the snapshot's
scalar fields are fixed copies, and `prune`, `applyDecay` and
`markCompacted` leave the items observed through a previously returned
snapshot unchanged (the first two allocate fresh arrays, the third touches
no array) — but a track operation mutates the shared items array in place,
so through the snapshot one observes exactly the post-track items. -/
theorem getState_shallow_copy (config : ContextTrackerConfig) (w : TrackerWorld)
    (thr : ℚ) (t : ℤ) (item : ContextItem) (tokens : ℚ)
    (h : w.st.itemsRef < w.heap.length) :
    (getState w).totalTokensEstimate = w.st.totalTokensEstimate ∧
    (getState w).needsCompaction = w.st.needsCompaction ∧
    derefItems (pruneRef config thr w).1 (getState w).itemsRef =
      derefItems w (getState w).itemsRef ∧
    derefItems (applyDecayRef config w) (getState w).itemsRef =
      derefItems w (getState w).itemsRef ∧
    derefItems (markCompactedRef t w) (getState w).itemsRef =
      derefItems w (getState w).itemsRef ∧
    derefItems (addItemRef config item tokens w) (getState w).itemsRef =
      itemsAfterAdd item (derefItems w (getState w).itemsRef) := by
  refine ⟨rfl, rfl, ?_, ?_, rfl, ?_⟩
  · show (w.heap ++ _).getD w.st.itemsRef [] = w.heap.getD w.st.itemsRef []
    exact List.getD_append _ _ _ _ h
  · show (w.heap ++ _).getD w.st.itemsRef [] = w.heap.getD w.st.itemsRef []
    exact List.getD_append _ _ _ _ h
  · show (addItemRef config item tokens w).heap.getD w.st.itemsRef [] =
      itemsAfterAdd item (derefItems w w.st.itemsRef)
    unfold addItemRef itemsAfterAdd
    cases hf : findIndex (fun i => i.path == item.path) (derefItems w w.st.itemsRef) with
    | some idx =>
        simp only [hf]
        exact getD_set_self h
    | none =>
        simp only [hf]
        exact getD_set_self h

/-- C8 witness: in the fresh tracker world (one live array), `prune` leaves
the snapshot's observed items unchanged, while `addItem` makes the appended
item visible through the snapshot. -/
theorem getState_shallow_copy_witness :
    derefItems (pruneRef DEFAULT_CONFIG (1/10) initialWorld).1
        (getState initialWorld).itemsRef =
      derefItems initialWorld (getState initialWorld).itemsRef ∧
    derefItems (addItemRef DEFAULT_CONFIG freshItem 5 initialWorld)
        (getState initialWorld).itemsRef =
      itemsAfterAdd freshItem (derefItems initialWorld (getState initialWorld).itemsRef) :=
  ⟨(getState_shallow_copy DEFAULT_CONFIG initialWorld (1/10) 0 freshItem 5
      (by decide)).2.2.1,
   (getState_shallow_copy DEFAULT_CONFIG initialWorld (1/10) 0 freshItem 5
      (by decide)).2.2.2.2.2⟩

end OpencodeHarness
